import Mathlib

/-!
Shallow embedding of the Ndakou/mcp-airtable server (three JavaScript
variants: `src/index.js`, `src/unnamed/part_000`, `src/unnamed/part_001`).

Modelling conventions:
* JS `undefined` / absent object properties become `Option`.
* The external Airtable collaborators (`listBases`, `listTables`,
  `listRecords`, `createRecord`, `updateRecord`, `deleteRecord`) are out of
  scope per the spec; each invocation is modelled as a `BackendCall` value
  handed to an opaque `Backend` function whose `Except.error m` outcome
  models the JS function throwing an error with message `m`, and whose
  `Except.ok s` outcome models success, `s` standing for the
  JSON-stringified payload.  The dispatcher additionally records the list
  of backend calls it made, so that claims about "the handler is (not)
  invoked" are statable.
* `randomUUID()` is modelled as a fresh-name counter: the state carries
  `nextId`, each generation returns `nextId` and bumps it.  Under this
  model the identifiers issued so far are exactly those below `nextId`.
* JS `Map` (string keys, insertion order, unique keys) is modelled as an
  association list `List (Nat × Nat)` with `mapGet` / `mapSet` /
  `mapDelete` mirroring `Map.get` / `Map.set` / `Map.delete`.
-/

/-- One item of a tool-result `content` array: `{type: "text", text: ...}`. -/
structure ContentItem where
  type : String
  text : String
deriving DecidableEq

/-- Result object produced by the tool dispatch (src/unnamed/part_000
`executeTool`, src/index.js CallToolRequestSchema handler): a `content`
list and the `isError` marker (absent on success in JS, modelled `false`). -/
structure ToolResult where
  content : List ContentItem
  isError : Bool
deriving DecidableEq

/-- The `arguments` object of a `tools/call`; properties the client did not
send are `none` (JS `undefined`).  The field map payload is opaque,
modelled as a list of (field name, value) pairs. -/
structure ToolArgs where
  baseId : Option String
  tableName : Option String
  maxRecords : Option Nat
  recordId : Option String
  fields : Option (List (String × String))
deriving DecidableEq

/-- Empty arguments object. -/
def noArgs : ToolArgs := ⟨none, none, none, none, none⟩

/-- One invocation of an external Airtable collaborator, with exactly the
arguments the dispatcher passes (possibly `undefined`, i.e. `none`). -/
inductive BackendCall where
  | listBases
  | listTables (baseId : Option String)
  | listRecords (baseId tableName : Option String) (maxRecords : Option Nat)
  | createRecord (baseId tableName : Option String)
      (fields : Option (List (String × String)))
  | updateRecord (baseId tableName recordId : Option String)
      (fields : Option (List (String × String)))
  | deleteRecord (baseId tableName recordId : Option String)
deriving DecidableEq

/-- Outcome of each external backend call for the current request:
`Except.error m` models the JS collaborator throwing with message `m`. -/
def Backend := BackendCall → Except String String

/-- Wrapping of a backend outcome exactly as the source's try/catch does:
success becomes a text content item holding the stringified payload (and no
`isError`); a thrown error becomes `Error: ` ++ message with `isError:
true` (src/unnamed/part_000 lines 190-211, src/index.js lines 242-261). -/
def wrapOutcome (o : Except String String) : ToolResult :=
  match o with
  | Except.ok s => { content := [⟨"text", s⟩], isError := false }
  | Except.error m => { content := [⟨"text", "Error: " ++ m⟩], isError := true }

/-- Result produced for an unknown tool name: the `default:` case throws
`Unknown tool: <name>` inside the same try, so the catch converts it to an
`isError` payload. -/
def unknownToolResult (name : String) : ToolResult :=
  { content := [⟨"text", "Error: Unknown tool: " ++ name⟩], isError := true }

/-- Tool dispatch switch of src/unnamed/part_000 `executeTool` (lines
163-212); src/index.js's CallToolRequestSchema handler (lines 214-262) is
the identical switch with the identical wrapping.  No argument validation
happens before the backend call: each case destructures `args` and passes
the (possibly `undefined`) properties straight to the collaborator.  The
second component is the instrumentation trace of backend calls made. -/
def executeTool (backend : Backend) (name : String) (args : ToolArgs) :
    ToolResult × List BackendCall :=
  if name = "airtable_list_bases" then
    (wrapOutcome (backend BackendCall.listBases), [BackendCall.listBases])
  else if name = "airtable_list_tables" then
    let c := BackendCall.listTables args.baseId
    (wrapOutcome (backend c), [c])
  else if name = "airtable_list_records" then
    let c := BackendCall.listRecords args.baseId args.tableName args.maxRecords
    (wrapOutcome (backend c), [c])
  else if name = "airtable_create_record" then
    let c := BackendCall.createRecord args.baseId args.tableName args.fields
    (wrapOutcome (backend c), [c])
  else if name = "airtable_update_record" then
    let c := BackendCall.updateRecord args.baseId args.tableName args.recordId args.fields
    (wrapOutcome (backend c), [c])
  else if name = "airtable_delete_record" then
    let c := BackendCall.deleteRecord args.baseId args.tableName args.recordId
    (wrapOutcome (backend c), [c])
  else
    (unknownToolResult name, [])

/-- A catalogued tool: name, description, declared property names and the
`required` list of its input schema. -/
structure ToolDescriptor where
  name : String
  description : String
  propertyNames : List String
  required : List String
deriving DecidableEq

/-- The static tool catalogue `TOOLS` of src/unnamed/part_000 lines 70-158;
src/index.js's ListToolsRequestSchema handler (lines 121-211) returns the
same six descriptors in the same order. -/
def TOOLS : List ToolDescriptor := [
  { name := "airtable_list_bases",
    description := "List all Airtable bases accessible with your API key",
    propertyNames := [], required := [] },
  { name := "airtable_list_tables",
    description := "List all tables in a specific Airtable base",
    propertyNames := ["baseId"], required := ["baseId"] },
  { name := "airtable_list_records",
    description := "List records from a table in an Airtable base",
    propertyNames := ["baseId", "tableName", "maxRecords"],
    required := ["baseId", "tableName"] },
  { name := "airtable_create_record",
    description := "Create a new record in an Airtable table",
    propertyNames := ["baseId", "tableName", "fields"],
    required := ["baseId", "tableName", "fields"] },
  { name := "airtable_update_record",
    description := "Update an existing record in an Airtable table",
    propertyNames := ["baseId", "tableName", "recordId", "fields"],
    required := ["baseId", "tableName", "recordId", "fields"] },
  { name := "airtable_delete_record",
    description := "Delete a record from an Airtable table",
    propertyNames := ["baseId", "tableName", "recordId"],
    required := ["baseId", "tableName", "recordId"] }
]

/-- Result payload of one method on src/unnamed/part_000's `/message`
endpoint. -/
inductive MessageResult where
  | toolsList (tools : List ToolDescriptor)
  | toolPayload (r : ToolResult)
  | initializeInfo (protocolVersion serverName serverVersion : String)
deriving DecidableEq

/-- JSON-RPC envelope written by src/unnamed/part_000's `/message`
endpoint: either `{jsonrpc, id, result}` or `{jsonrpc, id, error: {code,
message}}`. -/
inductive RpcResponse where
  | success (id : Option Nat) (result : MessageResult)
  | rpcError (id : Option Nat) (code : Int) (message : String)
deriving DecidableEq

/-- Body of a JSON-RPC request as read by src/unnamed/part_000's
`/message` endpoint: `{method, params, id}`, with `params` destructured
into `{name, arguments}` for `tools/call`. -/
structure MessageRequest where
  method : String
  id : Option Nat
  callName : String
  callArgs : ToolArgs
deriving DecidableEq

/-- Message dispatcher of src/unnamed/part_000 `app.post("/message")`
(lines 281-326).  Note that it consults no session identifier and keeps no
session state: every request is dispatched directly.  Tool failures are
already absorbed by `executeTool`, so the catch branch only fires for an
unknown method. -/
def handleMessage (backend : Backend) (req : MessageRequest) :
    RpcResponse × List BackendCall :=
  if req.method = "tools/list" then
    (RpcResponse.success req.id (MessageResult.toolsList TOOLS), [])
  else if req.method = "tools/call" then
    let rc := executeTool backend req.callName req.callArgs
    (RpcResponse.success req.id (MessageResult.toolPayload rc.1), rc.2)
  else if req.method = "initialize" then
    (RpcResponse.success req.id
      (MessageResult.initializeInfo "2024-11-05" "airtable-mcp" "1.0.0"), [])
  else
    (RpcResponse.rpcError req.id (-32603) ("Unknown method: " ++ req.method), [])

/-- JS `Map.get`: the binding of the key, if present. -/
def mapGet : List (Nat × Nat) → Nat → Option Nat
  | [], _ => none
  | (k', v') :: rest, k => if k' = k then some v' else mapGet rest k

/-- JS `Map.set`: replace the binding in place if the key exists, else
append.  Note it is total: it signals nothing when it overwrites. -/
def mapSet : List (Nat × Nat) → Nat → Nat → List (Nat × Nat)
  | [], k, v => [(k, v)]
  | (k', v') :: rest, k, v =>
      if k' = k then (k, v) :: rest else (k', v') :: mapSet rest k v

/-- JS `Map.delete`: remove the binding of the key (keys are unique in a
JS Map, so removing the first occurrence is faithful). -/
def mapDelete : List (Nat × Nat) → Nat → List (Nat × Nat)
  | [], _ => []
  | (k', v') :: rest, k => if k' = k then rest else (k', v') :: mapDelete rest k

/-- Number of entries a registry holds under a given key. -/
def countKey : List (Nat × Nat) → Nat → Nat
  | [], _ => 0
  | (k', _) :: rest, k => (if k' = k then 1 else 0) + countKey rest k

/-- Code-point prefix test, modelling `String.startsWith` (every prefix
used by the source is plain ASCII, so byte- and code-point prefixing
agree). -/
def leadsWith (pre s : List Char) : Bool :=
  match pre, s with
  | [], _ => true
  | _ :: _, [] => false
  | c :: pre', d :: s' => c == d && leadsWith pre' s'

/-- The `auth?.startsWith("Bearer ")` test applied to a possibly absent
authorization header (an absent header fails the test, as in JS where
optional chaining yields `undefined`, which is falsy). -/
def startsBearer (authorization : Option String) : Bool :=
  leadsWith "Bearer ".data (authorization.getD "").data

/-- The `auth.slice(7)` token extraction (drop the 7-character
`Bearer ` prefix). -/
def bearerToken (auth : String) : String :=
  String.mk (auth.data.drop 7)

/-- OAuth environment configuration of src/index.js lines 18-19:
`OAUTH_ISSUER` (host) and `OAUTH_AUDIENCE`, each possibly unset. -/
structure OAuthConfig where
  issuerHost : Option String
  audience : Option String
deriving DecidableEq

/-- Derived issuer URL, src/index.js line 23: `https://<host>/` when the
host is configured, otherwise null. -/
def oauthIssuer (cfg : OAuthConfig) : Option String :=
  cfg.issuerHost.map (fun h => "https://" ++ h ++ "/")

/-- Remote JWKS handle, src/index.js lines 28-33: created (from the issuer
URL) only when the issuer is configured, otherwise null.  The handle is
represented by its URL string. -/
def jwksHandle (cfg : OAuthConfig) : Option String :=
  (oauthIssuer cfg).map (fun iss => iss ++ ".well-known/jwks.json")

/-- Outcome of the external `jwtVerify(token, jwks, {issuer, audience})`
call for the current request: `true` models successful verification,
`false` models the call throwing for any reason — bad signature, an issuer
or audience claim that does not match the expected values, or failure to
fetch the remote key set.  External collaborator, consumed as a yes/no
predicate per the spec. -/
def VerifyOracle := String → String → String → Bool

/-- Authentication gate `requireAuth` of src/index.js lines 35-50: fail
when any OAuth configuration piece is missing, fail when the authorization
header is absent or not `Bearer `-prefixed, otherwise the verdict is the
`jwtVerify` outcome on the token (header minus the 7-character prefix),
with a thrown verification error caught into `false`. -/
def requireAuth (cfg : OAuthConfig) (verify : VerifyOracle)
    (authorization : Option String) : Bool :=
  match jwksHandle cfg, oauthIssuer cfg, cfg.audience with
  | some _, some iss, some aud =>
      if startsBearer authorization then
        verify (bearerToken (authorization.getD "")) iss aud
      else false
  | _, _, _ => false

/-- Shared session registry of src/index.js (line 280, `const sessions =
new Map()`): session id mapped to the (server, transport) pair, here a
transport reference token; `nextId` is the fresh-name source modelling
`randomUUID()`. -/
structure SseState where
  sessions : List (Nat × Nat)
  nextId : Nat
deriving DecidableEq

/-- Empty registry at process start. -/
def SseState.init : SseState := { sessions := [], nextId := 0 }

/-- Response of the two SSE connection endpoints. -/
inductive SseResponse where
  | connected (sessionId : Nat)
  | unauthorized
deriving DecidableEq

/-- Response of the two message POST endpoints. -/
inductive PostResponse where
  | unauthorized
  | sessionNotFound
  | dispatched (sessionId : Nat)
deriving DecidableEq

/-- Handler of GET `/mcp-public/sse`, src/index.js lines 285-316: mint a
session id with `randomUUID()`, create server and transport, register them
under the id, connect.  The request's authorization header is received but
never consulted — no call to `requireAuth` appears in this handler. -/
def mcpPublicSse (st : SseState) (authorization : Option String) :
    SseState × SseResponse :=
  let sid := st.nextId
  ({ sessions := mapSet st.sessions sid sid, nextId := st.nextId + 1 },
   SseResponse.connected sid)

/-- Handler of POST `/mcp-public/message`, src/index.js lines 318-337:
read the `x-session-id` header, look the session up; absent or unknown id
gives 404 `Session not found`, otherwise the session's transport handles
the message (`handlePostMessage`), which feeds the MCP dispatcher.  The
authorization header is received but never consulted. -/
def mcpPublicMessage (st : SseState) (authorization : Option String)
    (sessionHeader : Option Nat) : PostResponse :=
  match sessionHeader with
  | none => PostResponse.sessionNotFound
  | some sid =>
    match mapGet st.sessions sid with
    | none => PostResponse.sessionNotFound
    | some _ => PostResponse.dispatched sid

/-- Handler of GET `/mcp/sse`, src/index.js lines 342-366: `requireAuth`
first — a false verdict is answered 401 `Unauthorized` with no session
created; otherwise identical to the public SSE handler. -/
def mcpProtectedSse (cfg : OAuthConfig) (verify : VerifyOracle)
    (st : SseState) (authorization : Option String) :
    SseState × SseResponse :=
  if requireAuth cfg verify authorization then
    let sid := st.nextId
    ({ sessions := mapSet st.sessions sid sid, nextId := st.nextId + 1 },
     SseResponse.connected sid)
  else (st, SseResponse.unauthorized)

/-- Handler of POST `/mcp/message`, src/index.js lines 368-387:
`requireAuth` first (401 on failure, before the session lookup), then the
same lookup/dispatch as the public message handler. -/
def mcpProtectedMessage (cfg : OAuthConfig) (verify : VerifyOracle)
    (st : SseState) (authorization : Option String)
    (sessionHeader : Option Nat) : PostResponse :=
  if requireAuth cfg verify authorization then
    match sessionHeader with
    | none => PostResponse.sessionNotFound
    | some sid =>
      match mapGet st.sessions sid with
      | none => PostResponse.sessionNotFound
      | some _ => PostResponse.dispatched sid
  else PostResponse.unauthorized

/-- The `req.on("close")` callback of src/index.js lines 304-307 (and
358-361): a single step deleting the session's id from the registry. -/
def sseCloseStep (st : SseState) (sid : Nat) : SseState :=
  { st with sessions := mapDelete st.sessions sid }

/-- Transport registry of src/unnamed/part_001 (line 105, `const
transports = new Map()`): session id mapped to a transport reference;
`nextId` is the fresh-name source modelling the `randomUUID()` session id
generator. -/
structure McpState where
  transports : List (Nat × Nat)
  nextId : Nat
deriving DecidableEq

/-- Empty registry at process start. -/
def McpState.init : McpState := { transports := [], nextId := 0 }

/-- Under the fresh-name-counter model of `randomUUID()`, the identifiers
issued before reaching a state are exactly those below its counter. -/
def issuedBefore (st : McpState) (i : Nat) : Prop := i < st.nextId

/-- Request to the `/mcp` endpoint of src/unnamed/part_001: authorization
header, `mcp-session-id` header, JSON-RPC body. -/
structure McpRequest where
  authorization : Option String
  sessionHeader : Option Nat
  body : MessageRequest
deriving DecidableEq

/-- The SDK's `isInitializeRequest` check on the parsed body, used by
src/unnamed/part_001 line 147: does the body carry the `initialize`
method. -/
def isInitializeRequest (b : MessageRequest) : Bool := b.method = "initialize"

/-- Response of the `/mcp` endpoint. -/
inductive McpResponse where
  | unauthorized
  | expectedInitialize
  | handledBy (transportRef : Nat)
  | handledNew (sessionId : Nat)
deriving DecidableEq

/-- Effect of a successful initialize on `/mcp`, src/unnamed/part_001
lines 151-170: a new transport is created whose `sessionIdGenerator` is
`randomUUID()` (the fresh counter here) and whose `onsessioninitialized`
callback registers the transport under the generated id via
`transports.set(id, transport)`; the transport reference is identified
with the generated id. -/
def mcpInitialize (st : McpState) : McpState :=
  { transports := mapSet st.transports st.nextId st.nextId,
    nextId := st.nextId + 1 }

/-- Handler of `app.all("/mcp")`, src/unnamed/part_001 lines 124-178:
first the OAuth challenge — an authorization header that is absent or not
`Bearer `-prefixed is answered 401 (no token verification happens beyond
this prefix test); then `transport = sessionId ? transports.get(sessionId)
: null`; an existing transport handles the request; with no registered
transport, a non-initialize body is answered 400 `Expected initialize
request`, and an initialize body creates and registers a new transport
which then handles the request, yielding the fresh session id. -/
def handleMcp (st : McpState) (req : McpRequest) : McpState × McpResponse :=
  if startsBearer req.authorization then
    match req.sessionHeader.bind (mapGet st.transports) with
    | some t => (st, McpResponse.handledBy t)
    | none =>
      if isInitializeRequest req.body then
        (mcpInitialize st, McpResponse.handledNew st.nextId)
      else (st, McpResponse.expectedInitialize)
  else (st, McpResponse.unauthorized)

/-- The `transport.onclose` callback of src/unnamed/part_001 lines
163-166: a single step deleting the transport's session id from the
registry. -/
def transportCloseStep (st : McpState) (sid : Nat) : McpState :=
  { st with transports := mapDelete st.transports sid }

/-- Setting a key always makes it readable with the written value. -/
theorem mapGet_mapSet_self : ∀ (m : List (Nat × Nat)) (k v : Nat),
    mapGet (mapSet m k v) k = some v
  | [], k, v => by simp [mapSet, mapGet]
  | (k', v') :: rest, k, v => by
    by_cases h : k' = k
    · simp [mapSet, mapGet, h]
    · simp [mapSet, mapGet, h, mapGet_mapSet_self rest k v]

/-- Setting a key that is not yet bound appends the binding. -/
theorem mapSet_of_not_mem : ∀ (m : List (Nat × Nat)) (k v : Nat),
    k ∉ m.map Prod.fst → mapSet m k v = m ++ [(k, v)]
  | [], _, _, _ => rfl
  | (k', v') :: rest, k, v, h => by
    have hk : k' ≠ k := by
      intro e; exact h (by simp [e])
    have hr : k ∉ rest.map Prod.fst := by
      intro hm; exact h (by simp [hm])
    simp [mapSet, hk, mapSet_of_not_mem rest k v hr]

/-- Deletion yields a sublist of the registry. -/
theorem mapDelete_sublist : ∀ (m : List (Nat × Nat)) (k : Nat),
    (mapDelete m k).Sublist m
  | [], _ => List.Sublist.refl []
  | (k', v') :: rest, k => by
    by_cases h : k' = k
    · simp only [mapDelete, h, if_true]
      exact List.sublist_cons_self (k, v') rest
    · simpa [mapDelete, h] using (mapDelete_sublist rest k).cons₂ (k', v')

/-- A key bound nowhere reads as absent. -/
theorem mapGet_eq_none_of_not_mem : ∀ (m : List (Nat × Nat)) (k : Nat),
    k ∉ m.map Prod.fst → mapGet m k = none
  | [], _, _ => rfl
  | (k', v') :: rest, k, h => by
    have hk : k' ≠ k := by
      intro e; exact h (by simp [e])
    have hr : k ∉ rest.map Prod.fst := by
      intro hm; exact h (by simp [hm])
    simp [mapGet, hk, mapGet_eq_none_of_not_mem rest k hr]

/-- With pairwise-distinct keys, a deleted key reads as absent. -/
theorem mapGet_mapDelete_self : ∀ (m : List (Nat × Nat)) (k : Nat),
    (m.map Prod.fst).Nodup → mapGet (mapDelete m k) k = none
  | [], _, _ => rfl
  | (k', v') :: rest, k, h => by
    rw [List.map_cons, List.nodup_cons] at h
    by_cases e : k' = k
    · subst e
      simpa [mapDelete] using mapGet_eq_none_of_not_mem rest k' h.1
    · simp [mapDelete, mapGet, e, mapGet_mapDelete_self rest k h.2]

/-- A key bound nowhere has count zero. -/
theorem countKey_eq_zero_of_not_mem : ∀ (m : List (Nat × Nat)) (k : Nat),
    k ∉ m.map Prod.fst → countKey m k = 0
  | [], _, _ => rfl
  | (k', v') :: rest, k, h => by
    have hk : k' ≠ k := by
      intro e; exact h (by simp [e])
    have hr : k ∉ rest.map Prod.fst := by
      intro hm; exact h (by simp [hm])
    simp [countKey, hk, countKey_eq_zero_of_not_mem rest k hr]

/-- With pairwise-distinct keys, every key is bound at most once. -/
theorem countKey_le_one : ∀ (m : List (Nat × Nat)) (k : Nat),
    (m.map Prod.fst).Nodup → countKey m k ≤ 1
  | [], _, _ => by simp [countKey]
  | (k', v') :: rest, k, h => by
    rw [List.map_cons, List.nodup_cons] at h
    by_cases e : k' = k
    · subst e
      simp [countKey, countKey_eq_zero_of_not_mem rest k' h.1]
    · simpa [countKey, e] using countKey_le_one rest k h.2

/-- Registry invariant maintained by both servers: keys are pairwise
distinct and all below the fresh-name counter. -/
def regInv (m : List (Nat × Nat)) (n : Nat) : Prop :=
  (m.map Prod.fst).Nodup ∧ ∀ p ∈ m, p.1 < n

/-- The fresh-name counter is never a bound key. -/
theorem regInv_counter_not_mem (m : List (Nat × Nat)) (n : Nat)
    (h : regInv m n) : n ∉ m.map Prod.fst := by
  intro hm
  obtain ⟨p, hp, he⟩ := List.mem_map.1 hm
  have := h.2 p hp
  omega

/-- Registering a transport under the freshly generated id preserves the
invariant. -/
theorem regInv_insert (m : List (Nat × Nat)) (n : Nat) (h : regInv m n) :
    regInv (mapSet m n n) (n + 1) := by
  have hnm := regInv_counter_not_mem m n h
  rw [mapSet_of_not_mem m n n hnm]
  constructor
  · rw [List.map_append]
    rw [List.nodup_append]
    refine ⟨h.1, List.nodup_singleton n, ?_⟩
    intro a ha hb
    simp at hb
    subst hb
    exact hnm ha
  · intro p hp
    rcases List.mem_append.1 hp with h1 | h2
    · exact Nat.lt_succ_of_lt (h.2 p h1)
    · rw [List.mem_singleton] at h2
      subst h2
      exact Nat.lt_succ_self n

/-- Deleting a binding preserves the invariant. -/
theorem regInv_delete (m : List (Nat × Nat)) (n k : Nat) (h : regInv m n) :
    regInv (mapDelete m k) n := by
  constructor
  · exact h.1.sublist ((mapDelete_sublist m k).map Prod.fst)
  · intro p hp
    exact h.2 p ((mapDelete_sublist m k).subset hp)

/-- One external event of the src/index.js server: a connection on one of
the two SSE endpoints, or a client connection closing (message POSTs do
not mutate the registry). -/
inductive SseEvent where
  | publicConnect (authorization : Option String)
  | protectedConnect (cfg : OAuthConfig) (verify : VerifyOracle)
      (authorization : Option String)
  | connectionClosed (sid : Nat)

/-- State transition performed by one event of the src/index.js server. -/
def sseApply (st : SseState) (e : SseEvent) : SseState :=
  match e with
  | SseEvent.publicConnect a => (mcpPublicSse st a).1
  | SseEvent.protectedConnect cfg v a => (mcpProtectedSse cfg v st a).1
  | SseEvent.connectionClosed sid => sseCloseStep st sid

/-- States the src/index.js server can reach from startup. -/
def SseReachable (st : SseState) : Prop :=
  ∃ es : List SseEvent, st = es.foldl sseApply SseState.init

/-- One external event of the src/unnamed/part_001 server: an HTTP request
on `/mcp`, or a transport closing. -/
inductive McpEvent where
  | request (req : McpRequest)
  | transportClosed (sid : Nat)

/-- State transition performed by one event of the src/unnamed/part_001
server. -/
def mcpApply (st : McpState) (e : McpEvent) : McpState :=
  match e with
  | McpEvent.request r => (handleMcp st r).1
  | McpEvent.transportClosed sid => transportCloseStep st sid

/-- States the src/unnamed/part_001 server can reach from startup. -/
def McpReachable (st : McpState) : Prop :=
  ∃ es : List McpEvent, st = es.foldl mcpApply McpState.init

/-- Every src/index.js event preserves the registry invariant. -/
theorem sseInv_apply (st : SseState) (e : SseEvent)
    (h : regInv st.sessions st.nextId) :
    regInv (sseApply st e).sessions (sseApply st e).nextId := by
  cases e with
  | publicConnect a =>
    simpa [sseApply, mcpPublicSse] using regInv_insert st.sessions st.nextId h
  | protectedConnect cfg v a =>
    by_cases hb : requireAuth cfg v a
    · simpa [sseApply, mcpProtectedSse, hb] using
        regInv_insert st.sessions st.nextId h
    · simpa [sseApply, mcpProtectedSse, hb] using h
  | connectionClosed sid =>
    simpa [sseApply, sseCloseStep] using
      regInv_delete st.sessions st.nextId sid h

/-- A run of src/index.js events preserves the registry invariant. -/
theorem sseInv_foldl : ∀ (es : List SseEvent) (st : SseState),
    regInv st.sessions st.nextId →
    regInv (es.foldl sseApply st).sessions (es.foldl sseApply st).nextId
  | [], _, h => h
  | e :: es, st, h => sseInv_foldl es (sseApply st e) (sseInv_apply st e h)

/-- Every reachable state of the src/index.js server satisfies the
registry invariant. -/
theorem sseInv_reachable (st : SseState) (h : SseReachable st) :
    regInv st.sessions st.nextId := by
  obtain ⟨es, rfl⟩ := h
  refine sseInv_foldl es SseState.init ⟨?_, ?_⟩
  · simp [SseState.init]
  · intro p hp
    simp [SseState.init] at hp

/-- Every src/unnamed/part_001 event preserves the registry invariant. -/
theorem mcpInv_apply (st : McpState) (e : McpEvent)
    (h : regInv st.transports st.nextId) :
    regInv (mcpApply st e).transports (mcpApply st e).nextId := by
  cases e with
  | request r =>
    show regInv (handleMcp st r).1.transports (handleMcp st r).1.nextId
    unfold handleMcp
    by_cases hb : startsBearer r.authorization
    · simp only [hb, if_true]
      cases hm : r.sessionHeader.bind (mapGet st.transports) with
      | some t => simpa using h
      | none =>
        by_cases hi : isInitializeRequest r.body
        · simpa [hi, mcpInitialize] using
            regInv_insert st.transports st.nextId h
        · simpa [hi] using h
    · simpa [hb] using h
  | transportClosed sid =>
    simpa [mcpApply, transportCloseStep] using
      regInv_delete st.transports st.nextId sid h

/-- A run of src/unnamed/part_001 events preserves the registry
invariant. -/
theorem mcpInv_foldl : ∀ (es : List McpEvent) (st : McpState),
    regInv st.transports st.nextId →
    regInv (es.foldl mcpApply st).transports (es.foldl mcpApply st).nextId
  | [], _, h => h
  | e :: es, st, h => mcpInv_foldl es (mcpApply st e) (mcpInv_apply st e h)

/-- Every reachable state of the src/unnamed/part_001 server satisfies the
registry invariant. -/
theorem mcpInv_reachable (st : McpState) (h : McpReachable st) :
    regInv st.transports st.nextId := by
  obtain ⟨es, rfl⟩ := h
  refine mcpInv_foldl es McpState.init ⟨?_, ?_⟩
  · simp [McpState.init]
  · intro p hp
    simp [McpState.init] at hp

/-- A backend on which every collaborator call succeeds with an opaque
stringified payload. -/
def okBackend : Backend := fun _ => Except.ok "ok"

/-- C1 counterexample: on src/unnamed/part_000's `/message` endpoint a
`tools/call` request carrying no session identifier (the endpoint consults
none) is not rejected before dispatch — the backend collaborator is
invoked and an envelope-level success is returned — and an `initialize`
request there succeeds without yielding any session identifier (the
result carries only protocol version and server info). -/
theorem C1_counterexample :
    handleMessage okBackend ⟨"tools/call", some 1, "airtable_list_bases", noArgs⟩
      = (RpcResponse.success (some 1)
          (MessageResult.toolPayload ⟨[⟨"text", "ok"⟩], false⟩),
         [BackendCall.listBases])
    ∧ handleMessage okBackend ⟨"initialize", some 2, "", noArgs⟩
      = (RpcResponse.success (some 2)
          (MessageResult.initializeInfo "2024-11-05" "airtable-mcp" "1.0.0"),
         []) :=
  ⟨rfl, rfl⟩

/-- C1 (amended): on the streamable-HTTP `/mcp` endpoint
(src/unnamed/part_001), for every request passing the bearer-header check
and carrying no valid session identifier (the header is absent or looks up
no registered transport), a non-initialize body is rejected with 400
`Expected initialize request` (HandshakeRequired) and the state is
untouched — no dispatch; an initialize body always succeeds, registers a
transport under a freshly generated identifier that was never previously
issued (under the fresh-counter model of `randomUUID`), and answers with
that identifier. -/
theorem C1_thm :
    (∀ (st : McpState) (req : McpRequest),
        startsBearer req.authorization = true →
        req.sessionHeader.bind (mapGet st.transports) = none →
        isInitializeRequest req.body = false →
        handleMcp st req = (st, McpResponse.expectedInitialize))
    ∧ (∀ (st : McpState) (req : McpRequest),
        startsBearer req.authorization = true →
        req.sessionHeader.bind (mapGet st.transports) = none →
        isInitializeRequest req.body = true →
        handleMcp st req = (mcpInitialize st, McpResponse.handledNew st.nextId)
        ∧ ¬ issuedBefore st st.nextId
        ∧ mapGet (mcpInitialize st).transports st.nextId = some st.nextId) := by
  constructor
  · intro st req hb hs hi
    simp [handleMcp, hb, hs, hi]
  · intro st req hb hs hi
    refine ⟨by simp [handleMcp, hb, hs, hi], ?_, ?_⟩
    · simp [issuedBefore]
    · exact mapGet_mapSet_self st.transports st.nextId st.nextId

/-- C1 witness: the amended claim evaluated at the startup state, a
`tools/list` request and an `initialize` request, both bearing a token but
no session header. -/
theorem C1_witness :
    handleMcp McpState.init
        ⟨some "Bearer tok", none, ⟨"tools/list", some 1, "", noArgs⟩⟩
      = (McpState.init, McpResponse.expectedInitialize)
    ∧ (handleMcp McpState.init
          ⟨some "Bearer tok", none, ⟨"initialize", some 2, "", noArgs⟩⟩
        = (mcpInitialize McpState.init,
           McpResponse.handledNew McpState.init.nextId)
       ∧ ¬ issuedBefore McpState.init McpState.init.nextId
       ∧ mapGet (mcpInitialize McpState.init).transports McpState.init.nextId
          = some McpState.init.nextId) :=
  ⟨C1_thm.1 McpState.init
      ⟨some "Bearer tok", none, ⟨"tools/list", some 1, "", noArgs⟩⟩
      (by decide) (by decide) (by decide),
   C1_thm.2 McpState.init
      ⟨some "Bearer tok", none, ⟨"initialize", some 2, "", noArgs⟩⟩
      (by decide) (by decide) (by decide)⟩

/-- C2 counterexample: registering under an already-present identifier —
`Map.set` in `onsessioninitialized` (src/unnamed/part_001 line 157) and in
the SSE handlers (src/index.js lines 297 and 353) — silently replaces the
existing Transport entry: the operation is total, signals no failure, and
the registry afterwards holds the new reference where the old one was. -/
theorem C2_counterexample :
    mapSet [(0, 10)] 0 20 = [(0, 20)]
    ∧ mapGet (mapSet [(0, 10)] 0 20) 0 = some 20 :=
  ⟨rfl, rfl⟩

/-- C2 (amended): in every reachable state of either server, at most one
Transport is registered under any session identifier — identifiers are
generated fresh so a duplicate registration is never attempted and JS Map
keys stay unique; a duplicate put, however, would silently overwrite
rather than fail loudly. -/
theorem C2_thm :
    (∀ st : SseState, SseReachable st → ∀ s, countKey st.sessions s ≤ 1)
    ∧ (∀ st : McpState, McpReachable st → ∀ s, countKey st.transports s ≤ 1) := by
  constructor
  · intro st h s
    exact countKey_le_one st.sessions s (sseInv_reachable st h).1
  · intro st h s
    exact countKey_le_one st.transports s (mcpInv_reachable st h).1

/-- C2 witness: the amended claim evaluated at the states reached by one
public SSE connection and by one initialize request on `/mcp`. -/
theorem C2_witness :
    countKey (([SseEvent.publicConnect none].foldl sseApply
        SseState.init).sessions) 0 ≤ 1
    ∧ countKey (([McpEvent.request
          ⟨some "Bearer t", none, ⟨"initialize", some 1, "", noArgs⟩⟩].foldl
        mcpApply McpState.init).transports) 0 ≤ 1 :=
  ⟨C2_thm.1 _ ⟨[SseEvent.publicConnect none], rfl⟩ 0,
   C2_thm.2 _
     ⟨[McpEvent.request
         ⟨some "Bearer t", none, ⟨"initialize", some 1, "", noArgs⟩⟩], rfl⟩ 0⟩

/-- C3: a `tools/call` whose name is not one of the six registered tool
names yields the UnknownTool payload — an `isError`-marked text content —
with no backend call, wrapped by the `/message` dispatcher as an
envelope-level success (never an envelope-level JSON-RPC error); the
dispatch is a pure function of the request, so no session state is touched
and the session stays usable. -/
theorem C3_thm (backend : Backend) (name : String) (args : ToolArgs)
    (id : Option Nat) (h : name ∉ TOOLS.map ToolDescriptor.name) :
    executeTool backend name args = (unknownToolResult name, [])
    ∧ (unknownToolResult name).isError = true
    ∧ handleMessage backend ⟨"tools/call", id, name, args⟩
      = (RpcResponse.success id
          (MessageResult.toolPayload (unknownToolResult name)), []) := by
  simp only [TOOLS, List.map_cons, List.map_nil, List.mem_cons,
    List.not_mem_nil, or_false] at h
  push_neg at h
  obtain ⟨h1, h2, h3, h4, h5, h6⟩ := h
  have hx : executeTool backend name args = (unknownToolResult name, []) := by
    simp [executeTool, h1, h2, h3, h4, h5, h6]
  have hm : handleMessage backend ⟨"tools/call", id, name, args⟩
      = (RpcResponse.success id
          (MessageResult.toolPayload (executeTool backend name args).1),
         (executeTool backend name args).2) := rfl
  rw [hm, hx]
  exact ⟨rfl, rfl, rfl⟩

/-- C3 witness: the claim evaluated at the unregistered name
`no_such_tool`. -/
theorem C3_witness :
    executeTool okBackend "no_such_tool" noArgs
      = (unknownToolResult "no_such_tool", [])
    ∧ (unknownToolResult "no_such_tool").isError = true
    ∧ handleMessage okBackend ⟨"tools/call", some 7, "no_such_tool", noArgs⟩
      = (RpcResponse.success (some 7)
          (MessageResult.toolPayload (unknownToolResult "no_such_tool")), []) :=
  C3_thm okBackend "no_such_tool" noArgs (some 7) (by decide)

/-- A backend distinguishing whether any collaborator was invoked: every
call succeeds with a sentinel payload. -/
def spyBackend : Backend := fun _ => Except.ok "spy-called"

/-- Arguments of a `create_record` call that omit the `fields` member the
tool's declared schema marks as required. -/
def missingFieldsArgs : ToolArgs := ⟨some "appX", some "Tasks", none, none, none⟩

/-- C4 (code bug evaluated): a `tools/call` of `airtable_create_record`
whose arguments lack `fields` is dispatched straight to the backend
collaborator — `createRecord(args.baseId, args.tableName, undefined)` is
invoked (the spy backend records the call, with `fields = none`) and its
outcome is returned with no error marker; no InvalidArguments is produced
and no schema validation runs, although the tool's own catalogued input
schema (the second conjunct) marks `fields` as required. -/
theorem C4_thm :
    executeTool spyBackend "airtable_create_record" missingFieldsArgs
      = (⟨[⟨"text", "spy-called"⟩], false⟩,
         [BackendCall.createRecord (some "appX") (some "Tasks") none])
    ∧ (⟨"airtable_create_record", "Create a new record in an Airtable table",
        ["baseId", "tableName", "fields"],
        ["baseId", "tableName", "fields"]⟩ : ToolDescriptor) ∈ TOOLS :=
  ⟨rfl, by decide⟩

/-- C5: `tools/list` answers with exactly the six catalogued tool
descriptors, as an envelope-level success, independently of the backend,
the request id and any call parameters — hence identical across repeated
calls; the catalogue lists the six names in registration order. -/
theorem C5_thm (backend : Backend) (id : Option Nat) (callName : String)
    (args : ToolArgs) :
    handleMessage backend ⟨"tools/list", id, callName, args⟩
      = (RpcResponse.success id (MessageResult.toolsList TOOLS), [])
    ∧ TOOLS.map ToolDescriptor.name
      = ["airtable_list_bases", "airtable_list_tables",
         "airtable_list_records", "airtable_create_record",
         "airtable_update_record", "airtable_delete_record"]
    ∧ TOOLS.length = 6 :=
  ⟨rfl, by decide, by decide⟩

/-- C6: when a session's underlying connection closes, the close callback
— a single step in the event semantics (`transport.onclose` in
src/unnamed/part_001, `req.on("close")` in src/index.js) — removes its
identifier from the registry, so the identifier no longer resolves; a
subsequent request bearing the stale identifier is then treated exactly as
if no session existed: on `/mcp` a non-initialize body is rejected 400
`Expected initialize request` (HandshakeRequired) with no dispatch, and on
`/mcp-public/message` the answer is the same 404 `Session not found` that
the empty startup registry produces. -/
theorem C6_thm (st : McpState) (hst : McpReachable st) (sid : Nat)
    (auth : Option String) (hb : startsBearer auth = true)
    (body : MessageRequest) (hni : isInitializeRequest body = false)
    (sse : SseState) (hsse : SseReachable sse) (sid2 : Nat)
    (auth2 : Option String) :
    mapGet (transportCloseStep st sid).transports sid = none
    ∧ handleMcp (transportCloseStep st sid) ⟨auth, some sid, body⟩
        = (transportCloseStep st sid, McpResponse.expectedInitialize)
    ∧ mapGet (sseCloseStep sse sid2).sessions sid2 = none
    ∧ mcpPublicMessage (sseCloseStep sse sid2) auth2 (some sid2)
        = PostResponse.sessionNotFound
    ∧ mcpPublicMessage (sseCloseStep sse sid2) auth2 (some sid2)
        = mcpPublicMessage SseState.init auth2 (some sid2) := by
  have hget : mapGet (mapDelete st.transports sid) sid = none :=
    mapGet_mapDelete_self st.transports sid (mcpInv_reachable st hst).1
  have hget2 : mapGet (mapDelete sse.sessions sid2) sid2 = none :=
    mapGet_mapDelete_self sse.sessions sid2 (sseInv_reachable sse hsse).1
  refine ⟨hget, ?_, hget2, ?_, ?_⟩
  · simp [handleMcp, transportCloseStep, hb, hget, hni]
  · simp [mcpPublicMessage, sseCloseStep, hget2]
  · simp [mcpPublicMessage, sseCloseStep, hget2, SseState.init, mapGet]

/-- C6 witness: the claim evaluated after one initialize on `/mcp` and one
public SSE connection, closing session 0 each time and replaying its
identifier. -/
theorem C6_witness :
    mapGet (transportCloseStep ⟨[(0, 0)], 1⟩ 0).transports 0 = none
    ∧ handleMcp (transportCloseStep ⟨[(0, 0)], 1⟩ 0)
        ⟨some "Bearer tok", some 0, ⟨"tools/list", some 3, "", noArgs⟩⟩
        = (transportCloseStep ⟨[(0, 0)], 1⟩ 0, McpResponse.expectedInitialize)
    ∧ mapGet (sseCloseStep ⟨[(0, 0)], 1⟩ 0).sessions 0 = none
    ∧ mcpPublicMessage (sseCloseStep ⟨[(0, 0)], 1⟩ 0) none (some 0)
        = PostResponse.sessionNotFound
    ∧ mcpPublicMessage (sseCloseStep ⟨[(0, 0)], 1⟩ 0) none (some 0)
        = mcpPublicMessage SseState.init none (some 0) :=
  C6_thm ⟨[(0, 0)], 1⟩
    ⟨[McpEvent.request
        ⟨some "Bearer tok", none, ⟨"initialize", some 1, "", noArgs⟩⟩], rfl⟩
    0 (some "Bearer tok") (by decide)
    ⟨"tools/list", some 3, "", noArgs⟩ (by decide)
    ⟨[(0, 0)], 1⟩ ⟨[SseEvent.publicConnect none], rfl⟩ 0 none

/-- C7 counterexample: on the `/mcp` endpoint (src/unnamed/part_001) a
request whose bearer token is arbitrary garbage — a value no verifier
accepts; indeed `handleMcp` consults no verification oracle at all — is
not rejected 401: it reaches the dispatcher and succeeds, so on this
authenticated endpoint a token failing cryptographic verification is not
rejected before dispatch. -/
theorem C7_counterexample :
    (handleMcp McpState.init
        ⟨some "Bearer not-a-valid-token", none,
         ⟨"initialize", some 1, "", noArgs⟩⟩).2
      = McpResponse.handledNew 0
    ∧ (handleMcp McpState.init
        ⟨some "Bearer not-a-valid-token", none,
         ⟨"initialize", some 1, "", noArgs⟩⟩).2
      ≠ McpResponse.unauthorized :=
  ⟨rfl, by decide⟩

/-- C7 (amended): on the `requireAuth`-gated endpoints `/mcp/sse` and
`/mcp/message` of src/index.js, a request whose authorization header is
absent or not bearer-scheme, or whose `jwtVerify` call fails (bad
signature, issuer or audience mismatch, key-set fetch failure — all
modelled by a falsifying verification oracle), is rejected Unauthorized
with HTTP 401 before any session handling, with the registry untouched;
on the `/mcp` endpoint of src/unnamed/part_001, however, only an absent
or non-bearer-prefixed header is rejected 401 — the token itself is never
verified there. -/
theorem C7_thm :
    (∀ (cfg : OAuthConfig) (verify : VerifyOracle) (a : Option String)
        (st : SseState) (sh : Option Nat),
        startsBearer a = false →
        requireAuth cfg verify a = false
        ∧ mcpProtectedSse cfg verify st a = (st, SseResponse.unauthorized)
        ∧ mcpProtectedMessage cfg verify st a sh = PostResponse.unauthorized)
    ∧ (∀ (cfg : OAuthConfig) (a : Option String)
        (st : SseState) (sh : Option Nat),
        requireAuth cfg (fun _ _ _ => false) a = false
        ∧ mcpProtectedSse cfg (fun _ _ _ => false) st a
            = (st, SseResponse.unauthorized)
        ∧ mcpProtectedMessage cfg (fun _ _ _ => false) st a sh
            = PostResponse.unauthorized)
    ∧ (∀ (st : McpState) (req : McpRequest),
        startsBearer req.authorization = false →
        handleMcp st req = (st, McpResponse.unauthorized)) := by
  have hra : ∀ (cfg : OAuthConfig) (verify : VerifyOracle) (a : Option String),
      startsBearer a = false → requireAuth cfg verify a = false := by
    intro cfg verify a ha
    obtain ⟨ih, aud⟩ := cfg
    cases ih <;> cases aud <;>
      simp [requireAuth, jwksHandle, oauthIssuer, ha]
  have hraf : ∀ (cfg : OAuthConfig) (a : Option String),
      requireAuth cfg (fun _ _ _ => false) a = false := by
    intro cfg a
    obtain ⟨ih, aud⟩ := cfg
    cases ih <;> cases aud <;>
      simp [requireAuth, jwksHandle, oauthIssuer]
  refine ⟨?_, ?_, ?_⟩
  · intro cfg verify a st sh ha
    have h := hra cfg verify a ha
    exact ⟨h, by simp [mcpProtectedSse, h], by simp [mcpProtectedMessage, h]⟩
  · intro cfg a st sh
    have h := hraf cfg a
    exact ⟨h, by simp [mcpProtectedSse, h], by simp [mcpProtectedMessage, h]⟩
  · intro st req hb
    simp [handleMcp, hb]

/-- C7 witness: the amended claim evaluated at a non-bearer header, at a
failing verification oracle with a bearer header, and at a tokenless
`/mcp` request. -/
theorem C7_witness :
    (requireAuth ⟨some "issuer.example", some "aud"⟩ (fun _ _ _ => true)
        (some "Token abc") = false
     ∧ mcpProtectedSse ⟨some "issuer.example", some "aud"⟩ (fun _ _ _ => true)
        SseState.init (some "Token abc")
        = (SseState.init, SseResponse.unauthorized)
     ∧ mcpProtectedMessage ⟨some "issuer.example", some "aud"⟩
        (fun _ _ _ => true) SseState.init (some "Token abc") none
        = PostResponse.unauthorized)
    ∧ (requireAuth ⟨some "issuer.example", some "aud"⟩ (fun _ _ _ => false)
        (some "Bearer tok") = false
     ∧ mcpProtectedSse ⟨some "issuer.example", some "aud"⟩ (fun _ _ _ => false)
        SseState.init (some "Bearer tok")
        = (SseState.init, SseResponse.unauthorized)
     ∧ mcpProtectedMessage ⟨some "issuer.example", some "aud"⟩
        (fun _ _ _ => false) SseState.init (some "Bearer tok") none
        = PostResponse.unauthorized)
    ∧ handleMcp McpState.init ⟨none, none, ⟨"initialize", some 1, "", noArgs⟩⟩
        = (McpState.init, McpResponse.unauthorized) :=
  ⟨C7_thm.1 ⟨some "issuer.example", some "aud"⟩ (fun _ _ _ => true)
     (some "Token abc") SseState.init none (by decide),
   C7_thm.2.1 ⟨some "issuer.example", some "aud"⟩ (some "Bearer tok")
     SseState.init none,
   C7_thm.2.2 McpState.init
     ⟨none, none, ⟨"initialize", some 1, "", noArgs⟩⟩ (by decide)⟩

/-- C8: when a tool handler throws — modelled by a backend on which every
collaborator call errors with message `msg` — the dispatch catches the
exception at the registry boundary and converts it into the HandlerFailure
payload, a text content item `Error: msg` with the `isError` marker; the
dispatcher is a total function, so no handler exception escapes, and the
`/message` envelope is still an envelope-level success, leaving the
session usable. -/
theorem C8_thm (backend : Backend) (msg : String)
    (hb : ∀ c, backend c = Except.error msg)
    (name : String) (h : name ∈ TOOLS.map ToolDescriptor.name)
    (args : ToolArgs) (id : Option Nat) :
    (executeTool backend name args).1
      = ⟨[⟨"text", "Error: " ++ msg⟩], true⟩
    ∧ (handleMessage backend ⟨"tools/call", id, name, args⟩).1
      = RpcResponse.success id
          (MessageResult.toolPayload ⟨[⟨"text", "Error: " ++ msg⟩], true⟩) := by
  have hx : (executeTool backend name args).1
      = ⟨[⟨"text", "Error: " ++ msg⟩], true⟩ := by
    simp only [TOOLS, List.map_cons, List.map_nil, List.mem_cons,
      List.not_mem_nil, or_false] at h
    rcases h with h | h | h | h | h | h <;> subst h <;>
      simp [executeTool, wrapOutcome, hb]
  have hm : (handleMessage backend ⟨"tools/call", id, name, args⟩).1
      = RpcResponse.success id
          (MessageResult.toolPayload (executeTool backend name args).1) := rfl
  rw [hm, hx]
  exact ⟨rfl, rfl⟩

/-- C8 witness: the claim evaluated at a backend whose every call throws
`boom` and the tool name `airtable_list_bases`. -/
theorem C8_witness :
    (executeTool (fun _ => Except.error "boom") "airtable_list_bases" noArgs).1
      = ⟨[⟨"text", "Error: " ++ "boom"⟩], true⟩
    ∧ (handleMessage (fun _ => Except.error "boom")
        ⟨"tools/call", some 4, "airtable_list_bases", noArgs⟩).1
      = RpcResponse.success (some 4)
          (MessageResult.toolPayload ⟨[⟨"text", "Error: " ++ "boom"⟩], true⟩) :=
  C8_thm (fun _ => Except.error "boom") "boom" (fun _ => rfl)
    "airtable_list_bases" (by decide) noArgs (some 4)

/-- C9: the public surface executes tools with no authorization check at
all — `/mcp-public/sse` answers identically whatever the authorization
header is, registers a freshly minted session on every request, and
`/mcp-public/message` with a registered session identifier dispatches to
the session's transport (and so to the tool handlers) for any credential;
no call to `requireAuth` occurs on either handler. -/
theorem C9_thm (st : SseState) (a1 a2 : Option String) (sid t : Nat)
    (hget : mapGet st.sessions sid = some t) :
    mcpPublicSse st a1 = mcpPublicSse st a2
    ∧ (mcpPublicSse st a1).2 = SseResponse.connected st.nextId
    ∧ mapGet (mcpPublicSse st a1).1.sessions st.nextId = some st.nextId
    ∧ mcpPublicMessage st a1 (some sid) = mcpPublicMessage st a2 (some sid)
    ∧ mcpPublicMessage st a1 (some sid) = PostResponse.dispatched sid := by
  refine ⟨rfl, rfl, ?_, rfl, ?_⟩
  · exact mapGet_mapSet_self st.sessions st.nextId st.nextId
  · simp [mcpPublicMessage, hget]

/-- C9 witness: the claim evaluated on a registry holding session 5,
comparing an absent credential with an arbitrary bearer credential. -/
theorem C9_witness :
    mcpPublicSse ⟨[(5, 5)], 6⟩ none = mcpPublicSse ⟨[(5, 5)], 6⟩ (some "Bearer z")
    ∧ (mcpPublicSse ⟨[(5, 5)], 6⟩ none).2 = SseResponse.connected 6
    ∧ mapGet (mcpPublicSse ⟨[(5, 5)], 6⟩ none).1.sessions 6 = some 6
    ∧ mcpPublicMessage ⟨[(5, 5)], 6⟩ none (some 5)
        = mcpPublicMessage ⟨[(5, 5)], 6⟩ (some "Bearer z") (some 5)
    ∧ mcpPublicMessage ⟨[(5, 5)], 6⟩ none (some 5)
        = PostResponse.dispatched 5 :=
  C9_thm ⟨[(5, 5)], 6⟩ none (some "Bearer z") 5 5 (by decide)

/-- C10: when any OAuth configuration value is absent — the issuer host,
the audience, or the derived remote key set (which src/index.js creates
only when the issuer is configured) — `requireAuth` returns false for
every request, so `/mcp/sse` and `/mcp/message` answer 401 regardless of
the credential and the verification oracle: a missing configuration never
degrades the gate into an always-authorized one. -/
theorem C10_thm (cfg : OAuthConfig) (verify : VerifyOracle)
    (a : Option String) (st : SseState) (sh : Option Nat)
    (h : cfg.issuerHost = none ∨ cfg.audience = none ∨ jwksHandle cfg = none) :
    requireAuth cfg verify a = false
    ∧ mcpProtectedSse cfg verify st a = (st, SseResponse.unauthorized)
    ∧ mcpProtectedMessage cfg verify st a sh = PostResponse.unauthorized := by
  have hra : requireAuth cfg verify a = false := by
    obtain ⟨ih, aud⟩ := cfg
    cases ih with
    | none => cases aud <;> simp [requireAuth, jwksHandle, oauthIssuer]
    | some host =>
      cases aud with
      | none => simp [requireAuth, jwksHandle, oauthIssuer]
      | some audv =>
        exfalso
        rcases h with h | h | h
        · exact Option.some_ne_none host h
        · exact Option.some_ne_none audv h
        · simp [jwksHandle, oauthIssuer] at h
  exact ⟨hra, by simp [mcpProtectedSse, hra], by simp [mcpProtectedMessage, hra]⟩

/-- C10 witness: the claim evaluated with the issuer unset, an accepting
verification oracle and a well-formed bearer credential. -/
theorem C10_witness :
    requireAuth ⟨none, some "aud"⟩ (fun _ _ _ => true) (some "Bearer good") = false
    ∧ mcpProtectedSse ⟨none, some "aud"⟩ (fun _ _ _ => true) SseState.init
        (some "Bearer good") = (SseState.init, SseResponse.unauthorized)
    ∧ mcpProtectedMessage ⟨none, some "aud"⟩ (fun _ _ _ => true) SseState.init
        (some "Bearer good") none = PostResponse.unauthorized :=
  C10_thm ⟨none, some "aud"⟩ (fun _ _ _ => true) (some "Bearer good")
    SseState.init none (Or.inl rfl)
